import Mathlib

/-!
Verification of the emissions-calculator core of the WCO-biofuel LCA tool
(`lca-app.py`).  The computational core is the straight-line block at lines
71-82 of the source: it reads the inventory mapping `inv`, computes four
stage emission values and their total, and stores them in the `metrics`
mapping.  We embed the inventory record, the stage computations and the
`metrics` construction as Lean definitions over `ℚ` (the source works with
Python floats; all claims are exact formula identities, so exact rational
arithmetic is the faithful idealisation and stays within the spec's stated
1e-9 tolerance).

Python's float division raises `ZeroDivisionError` on a zero divisor, so
division is embedded as an `Option`-valued operation; `none` models the
uncaught exception aborting the script before `metrics` is produced.
-/

namespace LCA

/-- The inventory record `st.session_state.inv` (source lines 37-59): a flat
mapping of named numeric fields.  Field names follow the source keys. -/
structure Inv where
  fu_mj : ℚ
  wco_volume_l : ℚ
  collection_distance_km : ℚ
  methanol_l : ℚ
  koh_kg : ℚ
  reaction_energy_mj : ℚ
  purification_water_l : ℚ
  drying_energy_mj : ℚ
  distribution_distance_km : ℚ
  load_capacity_l : ℚ
  glycerol_kg : ℚ
  wastewater_l : ℚ
  wco_collection_ef : ℚ
  methanol_ef : ℚ
  koh_ef : ℚ
  energy_ef : ℚ
  electricity_ef : ℚ
  wastewater_treat_ef : ℚ
  glycerol_disposal_ef : ℚ
deriving DecidableEq

/-- Python float division: raises `ZeroDivisionError` (modelled as `none`)
when the divisor is zero, otherwise returns the exact quotient. -/
def pyDiv (a b : ℚ) : Option ℚ :=
  if b = 0 then none else some (a / b)

/-- Source line 71:
`stage1 = (inv['collection_distance_km'] * inv['wco_collection_ef']) +
(inv['methanol_l'] * inv['methanol_ef']) + (inv['koh_kg'] * inv['koh_ef'])`. -/
def stage1 (inv : Inv) : ℚ :=
  inv.collection_distance_km * inv.wco_collection_ef
    + inv.methanol_l * inv.methanol_ef
    + inv.koh_kg * inv.koh_ef

/-- Source line 72:
`stage2 = (inv['reaction_energy_mj'] * inv['energy_ef']) +
(inv['purification_water_l'] * inv['wastewater_treat_ef']) +
(inv['drying_energy_mj'] * inv['energy_ef'])`. -/
def stage2 (inv : Inv) : ℚ :=
  inv.reaction_energy_mj * inv.energy_ef
    + inv.purification_water_l * inv.wastewater_treat_ef
    + inv.drying_energy_mj * inv.energy_ef

/-- The value of source line 73 when the division succeeds:
`(inv['distribution_distance_km'] * inv['wco_collection_ef']) / inv['load_capacity_l']`. -/
def stage3val (inv : Inv) : ℚ :=
  inv.distribution_distance_km * inv.wco_collection_ef / inv.load_capacity_l

/-- Source line 73 with Python division semantics: `none` models the
`ZeroDivisionError` raised when `load_capacity_l` is zero. -/
def stage3 (inv : Inv) : Option ℚ :=
  pyDiv (inv.distribution_distance_km * inv.wco_collection_ef) inv.load_capacity_l

/-- Source line 74:
`stage5 = (inv['glycerol_kg'] * inv['glycerol_disposal_ef']) +
(inv['wastewater_l'] * inv['wastewater_treat_ef'])`. -/
def stage5 (inv : Inv) : ℚ :=
  inv.glycerol_kg * inv.glycerol_disposal_ef
    + inv.wastewater_l * inv.wastewater_treat_ef

/-- The `metrics` mapping of source lines 76-82: the four stage values under
their stage keys plus the `'Total'` key holding `stage1 + stage2 + stage3 +
stage5` (line 75). -/
structure StageEmissions where
  stage1 : ℚ
  stage2 : ℚ
  stage3 : ℚ
  stage5 : ℚ
  total : ℚ
deriving DecidableEq

/-- The whole calculator block, source lines 71-82: compute the stages and
assemble `metrics`.  `none` models the script dying with the uncaught
`ZeroDivisionError` from line 73 before `metrics` exists; the source has no
other failure path and performs no input validation. -/
def metrics (inv : Inv) : Option StageEmissions :=
  match stage3 inv with
  | none => none
  | some s3 =>
      some { stage1 := stage1 inv
             stage2 := stage2 inv
             stage3 := s3
             stage5 := stage5 inv
             total := stage1 inv + stage2 inv + s3 + stage5 inv }

/-- The validity condition named by the spec: every inventory field is
non-negative. -/
def InvNonneg (inv : Inv) : Prop :=
  0 ≤ inv.fu_mj ∧ 0 ≤ inv.wco_volume_l ∧ 0 ≤ inv.collection_distance_km ∧
  0 ≤ inv.methanol_l ∧ 0 ≤ inv.koh_kg ∧ 0 ≤ inv.reaction_energy_mj ∧
  0 ≤ inv.purification_water_l ∧ 0 ≤ inv.drying_energy_mj ∧
  0 ≤ inv.distribution_distance_km ∧ 0 ≤ inv.load_capacity_l ∧
  0 ≤ inv.glycerol_kg ∧ 0 ≤ inv.wastewater_l ∧ 0 ≤ inv.wco_collection_ef ∧
  0 ≤ inv.methanol_ef ∧ 0 ≤ inv.koh_ef ∧ 0 ≤ inv.energy_ef ∧
  0 ≤ inv.electricity_ef ∧ 0 ≤ inv.wastewater_treat_ef ∧
  0 ≤ inv.glycerol_disposal_ef

instance (inv : Inv) : Decidable (InvNonneg inv) := by
  unfold InvNonneg
  infer_instance

/-- The default inventory record installed in session state at source lines
37-59 (including the kWh-to-MJ boundary conversions `0.06 * 3.6` and
`1.0 * 3.6`). -/
def defaultInv : Inv where
  fu_mj := 1
  wco_volume_l := 30
  collection_distance_km := 24.6
  methanol_l := 8.54
  koh_kg := 0.45
  reaction_energy_mj := 0.06 * 3.6
  purification_water_l := 27
  drying_energy_mj := 1.0 * 3.6
  distribution_distance_km := 223
  load_capacity_l := 200
  glycerol_kg := 5
  wastewater_l := 54
  wco_collection_ef := 0.3
  methanol_ef := 1.5
  koh_ef := 2.0
  energy_ef := 0.5
  electricity_ef := 0.6
  wastewater_treat_ef := 0.2
  glycerol_disposal_ef := 0.1

/-- The record with every field zero except `load_capacity_l = 1`
(the spec's second example scenario). -/
def oneCapInv : Inv where
  fu_mj := 0
  wco_volume_l := 0
  collection_distance_km := 0
  methanol_l := 0
  koh_kg := 0
  reaction_energy_mj := 0
  purification_water_l := 0
  drying_energy_mj := 0
  distribution_distance_km := 0
  load_capacity_l := 1
  glycerol_kg := 0
  wastewater_l := 0
  wco_collection_ef := 0
  methanol_ef := 0
  koh_ef := 0
  energy_ef := 0
  electricity_ef := 0
  wastewater_treat_ef := 0
  glycerol_disposal_ef := 0

/-- From the spec's words (§4.1): acquisition = (collected-volume /
load-capacity) × collection-distance × collection-emission-factor +
methanol-volume × methanol-factor + catalyst-mass × catalyst-factor. -/
def spec_acquisition (inv : Inv) : ℚ :=
  inv.wco_volume_l / inv.load_capacity_l * inv.collection_distance_km * inv.wco_collection_ef
    + inv.methanol_l * inv.methanol_ef
    + inv.koh_kg * inv.koh_ef

/-- The amended acquisition formula, from the source's line 71: acquisition =
collection-distance × collection-emission-factor + methanol-volume ×
methanol-factor + catalyst-mass × catalyst-factor; the collected volume and
the load capacity do not enter the acquisition stage. -/
def amended_acquisition (inv : Inv) : ℚ :=
  inv.collection_distance_km * inv.wco_collection_ef
    + inv.methanol_l * inv.methanol_ef
    + inv.koh_kg * inv.koh_ef

/-- From the spec's words (§4.1): production = reaction-energy ×
energy-factor + purification-water × wastewater-factor + drying-energy ×
energy-factor. -/
def spec_production (inv : Inv) : ℚ :=
  inv.reaction_energy_mj * inv.energy_ef
    + inv.purification_water_l * inv.wastewater_treat_ef
    + inv.drying_energy_mj * inv.energy_ef

/-- From the spec's words (§4.1): distribution = (distribution-distance ×
collection-emission-factor) / load-capacity. -/
def spec_distribution (inv : Inv) : ℚ :=
  inv.distribution_distance_km * inv.wco_collection_ef / inv.load_capacity_l

/-- From the spec's words (§4.1): end-of-life = glycerol-mass ×
glycerol-factor + wastewater-volume × wastewater-factor. -/
def spec_end_of_life (inv : Inv) : ℚ :=
  inv.glycerol_kg * inv.glycerol_disposal_ef
    + inv.wastewater_l * inv.wastewater_treat_ef

/-- The default record with the load capacity set to zero: the boundary input
of the spec's `load-capacity == 0` requirement. -/
def zeroCapInv : Inv := { defaultInv with load_capacity_l := 0 }

/-- The default record with a negative methanol volume: an input the spec
requires the calculator to reject as InvalidInput. -/
def negInv : Inv := { defaultInv with methanol_l := -1 }

/-- The default record with the three fields the calculator never reads
(`fu_mj`, `wco_volume_l`, `electricity_ef`) changed. -/
def strippedInv : Inv := { defaultInv with fu_mj := 0, wco_volume_l := 0, electricity_ef := 0 }

/-- The stage emissions the calculator produces on `defaultInv`. -/
def defaultMetrics : StageEmissions where
  stage1 := 21.09
  stage2 := 7.308
  stage3 := 0.3345
  stage5 := 11.3
  total := 40.0325

/-- Replace the collection emission factor, keeping every other field. -/
def setCollectionEf (inv : Inv) (x : ℚ) : Inv := { inv with wco_collection_ef := x }

/-- Replace the methanol emission factor, keeping every other field. -/
def setMethanolEf (inv : Inv) (x : ℚ) : Inv := { inv with methanol_ef := x }

/-- Replace the catalyst (KOH) emission factor, keeping every other field. -/
def setKohEf (inv : Inv) (x : ℚ) : Inv := { inv with koh_ef := x }

/-- Replace the energy emission factor, keeping every other field. -/
def setEnergyEf (inv : Inv) (x : ℚ) : Inv := { inv with energy_ef := x }

/-- Replace the wastewater-treatment emission factor, keeping every other
field. -/
def setWastewaterEf (inv : Inv) (x : ℚ) : Inv := { inv with wastewater_treat_ef := x }

/-- Replace the glycerol-disposal emission factor, keeping every other
field. -/
def setGlycerolEf (inv : Inv) (x : ℚ) : Inv := { inv with glycerol_disposal_ef := x }

/-- The script state visible to the calculator block: the session-state
inventory record and the `metrics` variable it assigns. -/
structure CalcState where
  inv : Inv
  out : Option StageEmissions

/-- One execution of the calculator block (source lines 71-82) as an explicit
state transformer: it reads `inv` and assigns `out`; no line of the block
writes to `inv`. -/
def runCalc (s : CalcState) : CalcState :=
  { s with out := metrics s.inv }

end LCA

namespace LCA

/-- Helper: when the load capacity is non-zero, line 73's division succeeds
and the calculator produces the full `metrics` record. -/
theorem metrics_eq_some (inv : Inv) (h : inv.load_capacity_l ≠ 0) :
    metrics inv = some { stage1 := stage1 inv
                         stage2 := stage2 inv
                         stage3 := stage3val inv
                         stage5 := stage5 inv
                         total := stage1 inv + stage2 inv + stage3val inv + stage5 inv } := by
  simp [metrics, stage3, pyDiv, h, stage3val]

/-- C9: for the inventory record in which every field is zero except
load-capacity = 1, the calculator returns a grand total equal to exactly 0. -/
theorem zero_inputs_total_zero :
    (metrics oneCapInv).map StageEmissions.total = some 0 := by
  norm_num [metrics, stage3, pyDiv, stage1, stage2, stage5, oneCapInv]

/-- C1 counterexample: on the default inventory record (all fields
non-negative, load capacity 200 > 0) the acquisition value the calculator
returns differs from the spec's formula (collected-volume / load-capacity) ×
collection-distance × collection-factor + methanol terms: the source's
line 71 never reads the collected volume or the load capacity. -/
theorem acquisition_formula_counterexample :
    InvNonneg defaultInv ∧ 0 < defaultInv.load_capacity_l ∧
    (metrics defaultInv).map StageEmissions.stage1 = some 21.09 ∧
    spec_acquisition defaultInv = 14.817 ∧
    (metrics defaultInv).map StageEmissions.stage1 ≠ some (spec_acquisition defaultInv) := by
  refine ⟨by norm_num [InvNonneg, defaultInv], by norm_num [defaultInv], ?_, ?_, ?_⟩ <;>
    norm_num [metrics, stage3, pyDiv, stage1, spec_acquisition, defaultInv]

/-- C1 (amended): for every inventory record with all fields non-negative and
load-capacity strictly positive, the acquisition stage value returned by the
calculator equals collection-distance × collection-emission-factor +
methanol-volume × methanol-factor + catalyst-mass × catalyst-factor (the
collected volume and the load capacity do not enter the acquisition stage). -/
theorem acquisition_matches_amended_formula (inv : Inv) (h : InvNonneg inv)
    (hlc : 0 < inv.load_capacity_l) :
    (metrics inv).map StageEmissions.stage1 = some (amended_acquisition inv) := by
  rw [metrics_eq_some inv (ne_of_gt hlc)]
  simp [stage1, amended_acquisition]

/-- Witness for C1 (amended) at the default inventory record. -/
theorem acquisition_matches_amended_formula_witness :
    InvNonneg defaultInv ∧ 0 < defaultInv.load_capacity_l ∧
    (metrics defaultInv).map StageEmissions.stage1 = some (amended_acquisition defaultInv) :=
  ⟨by norm_num [InvNonneg, defaultInv], by norm_num [defaultInv],
    acquisition_matches_amended_formula defaultInv
      (by norm_num [InvNonneg, defaultInv]) (by norm_num [defaultInv])⟩

/-- C2: the code performs no input validation, contradicting the spec's
contract.  On the default record with load capacity zero the script dies with
an uncaught `ZeroDivisionError` (modelled by `none`) rather than an
InvalidInput error; on the default record with a negative methanol volume —
an input the spec requires to be rejected — the calculator happily produces a
full `metrics` record. -/
theorem no_input_validation :
    metrics zeroCapInv = none ∧
    ¬ InvNonneg negInv ∧ 0 < negInv.load_capacity_l ∧
    (metrics negInv).isSome = true := by
  refine ⟨?_, ?_, ?_, ?_⟩
  · simp [metrics, stage3, pyDiv, zeroCapInv]
  · norm_num [InvNonneg, negInv, defaultInv]
  · norm_num [negInv, defaultInv]
  · rw [metrics_eq_some negInv (by norm_num [negInv, defaultInv])]
    rfl

/-- C3: for every inventory record with all fields non-negative and
load-capacity > 0, the grand total returned by the calculator equals the sum
of the stage values it returns. -/
theorem total_is_sum_of_stages (inv : Inv) (h : InvNonneg inv)
    (hlc : 0 < inv.load_capacity_l) (r : StageEmissions)
    (hr : metrics inv = some r) :
    r.total = r.stage1 + r.stage2 + r.stage3 + r.stage5 := by
  rw [metrics_eq_some inv (ne_of_gt hlc)] at hr
  injection hr with hr
  subst hr
  rfl

/-- Witness for C3 at the default inventory record. -/
theorem total_is_sum_of_stages_witness :
    InvNonneg defaultInv ∧ 0 < defaultInv.load_capacity_l ∧
    metrics defaultInv = some defaultMetrics ∧
    defaultMetrics.total =
      defaultMetrics.stage1 + defaultMetrics.stage2 + defaultMetrics.stage3 + defaultMetrics.stage5 :=
  ⟨by norm_num [InvNonneg, defaultInv], by norm_num [defaultInv],
    by rw [metrics_eq_some defaultInv (by norm_num [defaultInv])]
       norm_num [stage1, stage2, stage3val, stage5, defaultInv, defaultMetrics],
    total_is_sum_of_stages defaultInv (by norm_num [InvNonneg, defaultInv])
      (by norm_num [defaultInv]) defaultMetrics
      (by rw [metrics_eq_some defaultInv (by norm_num [defaultInv])]
          norm_num [stage1, stage2, stage3val, stage5, defaultInv, defaultMetrics])⟩

/-- C4: for every valid inventory record the production stage value returned
by the calculator equals reaction-energy × energy-factor +
purification-water × wastewater-factor + drying-energy × energy-factor; the
default record expresses both energies in MJ, converted from kWh at the input
boundary (`0.06 * 3.6` and `1.0 * 3.6`, source lines 48 and 50). -/
theorem production_matches_spec_formula (inv : Inv) (h : InvNonneg inv)
    (hlc : 0 < inv.load_capacity_l) :
    (metrics inv).map StageEmissions.stage2 = some (spec_production inv) ∧
    defaultInv.reaction_energy_mj = 0.06 * 3.6 ∧
    defaultInv.drying_energy_mj = 1.0 * 3.6 := by
  refine ⟨?_, by norm_num [defaultInv], by norm_num [defaultInv]⟩
  rw [metrics_eq_some inv (ne_of_gt hlc)]
  simp [stage2, spec_production]

/-- Witness for C4 at the default inventory record. -/
theorem production_matches_spec_formula_witness :
    InvNonneg defaultInv ∧ 0 < defaultInv.load_capacity_l ∧
    ((metrics defaultInv).map StageEmissions.stage2 = some (spec_production defaultInv) ∧
      defaultInv.reaction_energy_mj = 0.06 * 3.6 ∧
      defaultInv.drying_energy_mj = 1.0 * 3.6) :=
  ⟨by norm_num [InvNonneg, defaultInv], by norm_num [defaultInv],
    production_matches_spec_formula defaultInv
      (by norm_num [InvNonneg, defaultInv]) (by norm_num [defaultInv])⟩

/-- C5: for every valid inventory record the distribution stage value
returned by the calculator equals (distribution-distance ×
collection-emission-factor) / load-capacity. -/
theorem distribution_matches_spec_formula (inv : Inv) (h : InvNonneg inv)
    (hlc : 0 < inv.load_capacity_l) :
    (metrics inv).map StageEmissions.stage3 = some (spec_distribution inv) := by
  rw [metrics_eq_some inv (ne_of_gt hlc)]
  simp [stage3val, spec_distribution]

/-- Witness for C5 at the default inventory record. -/
theorem distribution_matches_spec_formula_witness :
    InvNonneg defaultInv ∧ 0 < defaultInv.load_capacity_l ∧
    (metrics defaultInv).map StageEmissions.stage3 = some (spec_distribution defaultInv) :=
  ⟨by norm_num [InvNonneg, defaultInv], by norm_num [defaultInv],
    distribution_matches_spec_formula defaultInv
      (by norm_num [InvNonneg, defaultInv]) (by norm_num [defaultInv])⟩

/-- C6: for every valid inventory record the end-of-life stage value returned
by the calculator equals glycerol-mass × glycerol-factor + wastewater-volume
× wastewater-factor. -/
theorem end_of_life_matches_spec_formula (inv : Inv) (h : InvNonneg inv)
    (hlc : 0 < inv.load_capacity_l) :
    (metrics inv).map StageEmissions.stage5 = some (spec_end_of_life inv) := by
  rw [metrics_eq_some inv (ne_of_gt hlc)]
  simp [stage5, spec_end_of_life]

/-- Witness for C6 at the default inventory record. -/
theorem end_of_life_matches_spec_formula_witness :
    InvNonneg defaultInv ∧ 0 < defaultInv.load_capacity_l ∧
    (metrics defaultInv).map StageEmissions.stage5 = some (spec_end_of_life defaultInv) :=
  ⟨by norm_num [InvNonneg, defaultInv], by norm_num [defaultInv],
    end_of_life_matches_spec_formula defaultInv
      (by norm_num [InvNonneg, defaultInv]) (by norm_num [defaultInv])⟩

/-- C7: the calculator block is deterministic and side-effect free: running
it leaves the inventory record unchanged, and running it a second time on the
resulting state produces an output identical to the first run's. -/
theorem calculator_pure_and_idempotent (s : CalcState) :
    (runCalc s).inv = s.inv ∧
    (runCalc (runCalc s)).out = (runCalc s).out ∧
    (runCalc s).out = metrics s.inv :=
  ⟨rfl, rfl, rfl⟩

/-- C8: for every valid inventory record, increasing a single emission
factor while holding all other fields fixed never decreases the stage
value(s) that factor contributes to: the collection factor feeds stage 1 and
stage 3, the methanol and catalyst factors feed stage 1, the energy factor
feeds stage 2, the wastewater factor feeds stages 2 and 5, and the glycerol
factor feeds stage 5. -/
theorem factor_monotonicity (inv : Inv) (h : InvNonneg inv)
    (hlc : 0 < inv.load_capacity_l) (x y : ℚ) (hxy : x ≤ y) :
    stage1 (setCollectionEf inv x) ≤ stage1 (setCollectionEf inv y) ∧
    stage3val (setCollectionEf inv x) ≤ stage3val (setCollectionEf inv y) ∧
    stage1 (setMethanolEf inv x) ≤ stage1 (setMethanolEf inv y) ∧
    stage1 (setKohEf inv x) ≤ stage1 (setKohEf inv y) ∧
    stage2 (setEnergyEf inv x) ≤ stage2 (setEnergyEf inv y) ∧
    stage2 (setWastewaterEf inv x) ≤ stage2 (setWastewaterEf inv y) ∧
    stage5 (setWastewaterEf inv x) ≤ stage5 (setWastewaterEf inv y) ∧
    stage5 (setGlycerolEf inv x) ≤ stage5 (setGlycerolEf inv y) := by
  obtain ⟨-, -, h3, h4, h5, h6, h7, h8, h9, -, h11, h12, -, -, -, -, -, -, -⟩ := h
  refine ⟨?_, ?_, ?_, ?_, ?_, ?_, ?_, ?_⟩
  · simp only [stage1, setCollectionEf]
    linarith [mul_le_mul_of_nonneg_left hxy h3]
  · simp only [stage3val, setCollectionEf]
    exact (div_le_div_iff_of_pos_right hlc).mpr (mul_le_mul_of_nonneg_left hxy h9)
  · simp only [stage1, setMethanolEf]
    linarith [mul_le_mul_of_nonneg_left hxy h4]
  · simp only [stage1, setKohEf]
    linarith [mul_le_mul_of_nonneg_left hxy h5]
  · simp only [stage2, setEnergyEf]
    linarith [mul_le_mul_of_nonneg_left hxy h6, mul_le_mul_of_nonneg_left hxy h8]
  · simp only [stage2, setWastewaterEf]
    linarith [mul_le_mul_of_nonneg_left hxy h7]
  · simp only [stage5, setWastewaterEf]
    linarith [mul_le_mul_of_nonneg_left hxy h12]
  · simp only [stage5, setGlycerolEf]
    linarith [mul_le_mul_of_nonneg_left hxy h11]

/-- Witness for C8 at the default inventory record with the factor raised
from 0 to 1. -/
theorem factor_monotonicity_witness :
    InvNonneg defaultInv ∧ 0 < defaultInv.load_capacity_l ∧ (0 : ℚ) ≤ 1 ∧
    (stage1 (setCollectionEf defaultInv 0) ≤ stage1 (setCollectionEf defaultInv 1) ∧
     stage3val (setCollectionEf defaultInv 0) ≤ stage3val (setCollectionEf defaultInv 1) ∧
     stage1 (setMethanolEf defaultInv 0) ≤ stage1 (setMethanolEf defaultInv 1) ∧
     stage1 (setKohEf defaultInv 0) ≤ stage1 (setKohEf defaultInv 1) ∧
     stage2 (setEnergyEf defaultInv 0) ≤ stage2 (setEnergyEf defaultInv 1) ∧
     stage2 (setWastewaterEf defaultInv 0) ≤ stage2 (setWastewaterEf defaultInv 1) ∧
     stage5 (setWastewaterEf defaultInv 0) ≤ stage5 (setWastewaterEf defaultInv 1) ∧
     stage5 (setGlycerolEf defaultInv 0) ≤ stage5 (setGlycerolEf defaultInv 1)) :=
  ⟨by norm_num [InvNonneg, defaultInv], by norm_num [defaultInv], by norm_num,
    factor_monotonicity defaultInv (by norm_num [InvNonneg, defaultInv])
      (by norm_num [defaultInv]) 0 1 (by norm_num)⟩

/-- C10 (implicit): the calculator never reads the collected WCO volume, the
functional-unit field, or the electricity emission factor: any two inventory
records that agree on the sixteen remaining fields receive identical stage
values and total. -/
theorem unused_fields_noninterference (a b : Inv)
    (h : a.collection_distance_km = b.collection_distance_km ∧
         a.methanol_l = b.methanol_l ∧
         a.koh_kg = b.koh_kg ∧
         a.reaction_energy_mj = b.reaction_energy_mj ∧
         a.purification_water_l = b.purification_water_l ∧
         a.drying_energy_mj = b.drying_energy_mj ∧
         a.distribution_distance_km = b.distribution_distance_km ∧
         a.load_capacity_l = b.load_capacity_l ∧
         a.glycerol_kg = b.glycerol_kg ∧
         a.wastewater_l = b.wastewater_l ∧
         a.wco_collection_ef = b.wco_collection_ef ∧
         a.methanol_ef = b.methanol_ef ∧
         a.koh_ef = b.koh_ef ∧
         a.energy_ef = b.energy_ef ∧
         a.wastewater_treat_ef = b.wastewater_treat_ef ∧
         a.glycerol_disposal_ef = b.glycerol_disposal_ef) :
    metrics a = metrics b := by
  obtain ⟨e1, e2, e3, e4, e5, e6, e7, e8, e9, e10, e11, e12, e13, e14, e15, e16⟩ := h
  simp only [metrics, stage3, pyDiv, stage1, stage2, stage5,
    e1, e2, e3, e4, e5, e6, e7, e8, e9, e10, e11, e12, e13, e14, e15, e16]

/-- Witness for C10: the default record and the default record with `fu_mj`,
`wco_volume_l` and `electricity_ef` altered produce identical metrics. -/
theorem unused_fields_noninterference_witness :
    (defaultInv.collection_distance_km = strippedInv.collection_distance_km ∧
     defaultInv.methanol_l = strippedInv.methanol_l ∧
     defaultInv.koh_kg = strippedInv.koh_kg ∧
     defaultInv.reaction_energy_mj = strippedInv.reaction_energy_mj ∧
     defaultInv.purification_water_l = strippedInv.purification_water_l ∧
     defaultInv.drying_energy_mj = strippedInv.drying_energy_mj ∧
     defaultInv.distribution_distance_km = strippedInv.distribution_distance_km ∧
     defaultInv.load_capacity_l = strippedInv.load_capacity_l ∧
     defaultInv.glycerol_kg = strippedInv.glycerol_kg ∧
     defaultInv.wastewater_l = strippedInv.wastewater_l ∧
     defaultInv.wco_collection_ef = strippedInv.wco_collection_ef ∧
     defaultInv.methanol_ef = strippedInv.methanol_ef ∧
     defaultInv.koh_ef = strippedInv.koh_ef ∧
     defaultInv.energy_ef = strippedInv.energy_ef ∧
     defaultInv.wastewater_treat_ef = strippedInv.wastewater_treat_ef ∧
     defaultInv.glycerol_disposal_ef = strippedInv.glycerol_disposal_ef) ∧
    defaultInv.wco_volume_l ≠ strippedInv.wco_volume_l ∧
    metrics defaultInv = metrics strippedInv := by
  refine ⟨?_, by norm_num [defaultInv, strippedInv],
    unused_fields_noninterference defaultInv strippedInv ?_⟩ <;>
    exact ⟨rfl, rfl, rfl, rfl, rfl, rfl, rfl, rfl, rfl, rfl, rfl, rfl, rfl, rfl, rfl, rfl⟩

end LCA
